import Mathlib

/-!
Verification of the SQL Server object extractor (src/sql_server_extractor.py)
against its natural-language specification.

The Python program is shallowly embedded: pure string building is translated
to Lean string functions, and the effectful parts (catalog queries, the
module-definition lookups, `save_object`'s file write) are modelled by
`Except String` outcomes supplied by an environment record, so that the
`try`/`except` structure of the source becomes explicit `match`es on those
outcomes.  Everything is executable.
-/

/-- `class ObjectType(Enum)` with members `TABLE = "tables"`,
`VIEW = "views"`, `PROCEDURE = "stored_procedures"`. -/
inductive ObjectType where
  | TABLE
  | VIEW
  | PROCEDURE
deriving DecidableEq

/-- The `.value` of each `ObjectType` enum member (the folder name). -/
def ObjectType.value : ObjectType → String
  | .TABLE => "tables"
  | .VIEW => "views"
  | .PROCEDURE => "stored_procedures"

/-- `DatabaseObject` dataclass: `schema`, `name`. -/
structure DatabaseObject where
  schema : String
  name : String
deriving DecidableEq

/-- `full_name` property: `f"{self.schema}.{self.name}"`. -/
def DatabaseObject.full_name (o : DatabaseObject) : String :=
  o.schema ++ "." ++ o.name

/-- One row of the column-metadata query in `_generate_table_ddl`
(lines 232-249): `(c.name, data_type, c.is_nullable, c.is_identity,
is_computed)`.  The `data_type` string is rendered by the SQL `CASE`
expression on the server, so it arrives in Python as an opaque string. -/
structure ColumnRow where
  name : String
  data_type : String
  is_nullable : Bool
  is_identity : Bool
  is_computed : Bool
deriving DecidableEq

/-- Python's `str.replace(pat, rep)` for a one-character pattern and
one-character replacement, on the character list of the string. -/
def replaceChar (pat rep : Char) : List Char → List Char
  | [] => []
  | c :: cs => (if c = pat then rep else c) :: replaceChar pat rep cs

/-- `save_object` line 334:
`obj_name.replace("\\", "_").replace("/", "_").replace(":", "_")`. -/
def sanitize_obj_name (s : String) : String :=
  String.mk (replaceChar ':' '_' (replaceChar '/' '_' (replaceChar '\\' '_' s.data)))

/-- `create_folder_structure` line 318 (and `generate_report` line 403):
`server_name.replace("\\", "_").replace("/", "_")` — note: no `":"`
replacement, unlike `sanitize_obj_name`. -/
def sanitize_server_name (s : String) : String :=
  String.mk (replaceChar '/' '_' (replaceChar '\\' '_' s.data))

/-- `create_folder_structure`: the folder for an object kind is
`output_dir / sanitized_server / obj_type.value`, rendered as a list of
path segments. -/
def create_folder_structure (output_dir server_name : String) (obj_type : ObjectType) :
    List String :=
  [output_dir, sanitize_server_name server_name, obj_type.value]

/-- `save_object` lines 334-336: the file path is
`folder / database / (safe_obj_name + extension)` with extension `".sql"`. -/
def save_object_path (folder : List String) (database obj_name : String) : List String :=
  folder ++ [database, sanitize_obj_name obj_name ++ ".sql"]

/-- The full artifact path for one object, as `extract_all_objects` produces
it: `create_folder_structure` composed with `save_object`'s path logic. -/
def object_path (output_dir server_name : String) (obj_type : ObjectType)
    (database obj_name : String) : List String :=
  save_object_path (create_folder_structure output_dir server_name obj_type) database obj_name

/-- `save_object` lines 342-345: the exact text written to the artifact file
(three header lines, a blank line, then the content verbatim). -/
def save_object_content (timestamp database obj_name content : String) : String :=
  ("-- Extracted on " ++ timestamp ++ "\n") ++
  ("-- Database: " ++ database ++ "\n") ++
  ("-- Object: " ++ obj_name ++ "\n\n") ++
  content

/-- One rendered column line of `_generate_table_ddl` (lines 256-260):
`f"    [{col_name}] {data_type}{identity} {nullable}"`. -/
def ddl_column_line (col : ColumnRow) : String :=
  let nullable := if col.is_nullable then "NULL" else "NOT NULL"
  let identity := if col.is_identity then " IDENTITY(1,1)" else ""
  "    [" ++ col.name ++ "] " ++ col.data_type ++ identity ++ " " ++ nullable

/-- The `for i, col in enumerate(columns)` loop of `_generate_table_ddl`
(lines 255-266): append the column line, a comma when `i < len(columns) - 1`,
then a newline; after the loop append `");"`.  `n` is `len(columns)`. -/
def ddl_columns_loop (n : Nat) : List ColumnRow → Nat → String → String
  | [], _, ddl => ddl ++ ");"
  | col :: rest, i, ddl =>
    let ddl := ddl ++ ddl_column_line col
    let ddl := if i < n - 1 then ddl ++ "," else ddl
    ddl_columns_loop n rest (i + 1) (ddl ++ "\n")

/-- The pure string-building part of `_generate_table_ddl` (lines 253-268),
given the already-fetched column rows. -/
def generate_table_ddl_columns (schema table : String) (columns : List ColumnRow) : String :=
  ddl_columns_loop columns.length columns 0
    ("CREATE TABLE [" ++ schema ++ "].[" ++ table ++ "] (\n")

/-- `_generate_table_ddl` (lines 226-268): the column-metadata query may
raise (modelled by `columns = .error e`), in which case the exception
propagates to the caller; otherwise the DDL string is built. -/
def generate_table_ddl (columns : Except String (List ColumnRow))
    (schema table : String) : Except String String :=
  match columns with
  | .error e => .error e
  | .ok cols => .ok (generate_table_ddl_columns schema table cols)

/-- The placeholder `get_table_ddl` returns from its `except` clause
(line 224): `f"-- Could not extract DDL for {schema}.{table}\n-- Error: {e}"`. -/
def table_ddl_error_comment (schema table e : String) : String :=
  "-- Could not extract DDL for " ++ schema ++ "." ++ table ++ "\n-- Error: " ++ e

/-- `get_table_ddl` (lines 195-224).  `native` is the outcome of the
`OBJECT_DEFINITION` query and its `fetchone()`: `.error e` when the query
raises, `.ok none` when no row matched, `.ok (some d)` for a row whose
`definition` column is `d` (`none` inside for SQL NULL).  The Python test
`if result and result[2]:` returns the definition only when the row exists
and the definition is truthy (non-NULL and non-empty); otherwise it falls
back to `_generate_table_ddl`, whose exception — like one from the native
query itself — is caught and converted to `table_ddl_error_comment`. -/
def get_table_ddl (native : Except String (Option (Option String)))
    (columns : Except String (List ColumnRow)) (schema table : String) : String :=
  let attempt : Except String String :=
    match native with
    | .error e => .error e
    | .ok row =>
      match row with
      | some (some d) =>
        if d = "" then generate_table_ddl columns schema table else .ok d
      | _ => generate_table_ddl columns schema table
  match attempt with
  | .ok d => d
  | .error e => table_ddl_error_comment schema table e

/-- `get_view_definition`'s fallback line 291:
`f"-- Could not extract view definition for {schema}.{view}"`. -/
def view_unavailable_comment (schema view : String) : String :=
  "-- Could not extract view definition for " ++ schema ++ "." ++ view

/-- `get_view_definition` (lines 270-291).  `lookup` is the outcome of the
`sys.sql_modules` query plus `fetchone()`: `.error e` when the query raises
(caught and logged), `.ok none` when no row matched, `.ok (some d)` for a
row whose single `definition` column is `d` — with `none` inside when that
column is SQL NULL (encrypted module / stripped definition).  The result
models the Python return value, which is a `str` (`some`) or `None`
(`none`): a one-column pyodbc `Row` is truthy even when its value is
`None`, so `if result: return result[0]` returns the possibly-`None`
column for every found row, and only the no-row and raised-query paths
reach the placeholder at line 291. -/
def get_view_definition (lookup : Except String (Option (Option String)))
    (schema view : String) : Option String :=
  match lookup with
  | .ok (some d) => d
  | .ok none => some (view_unavailable_comment schema view)
  | .error _ => some (view_unavailable_comment schema view)

/-- `get_stored_procedure_definition`'s fallback line 314. -/
def procedure_unavailable_comment (schema procedure : String) : String :=
  "-- Could not extract stored procedure definition for " ++ schema ++ "." ++ procedure

/-- `get_stored_procedure_definition` (lines 293-314), same structure as
`get_view_definition`, including the `Row`-truthiness behaviour: a found
row with a SQL NULL `definition` column makes the function return `None`. -/
def get_stored_procedure_definition (lookup : Except String (Option (Option String)))
    (schema procedure : String) : Option String :=
  match lookup with
  | .ok (some d) => d
  | .ok none => some (procedure_unavailable_comment schema procedure)
  | .error _ => some (procedure_unavailable_comment schema procedure)

/-- The query/IO outcomes one run of `extract_all_objects` encounters.
Each field models the observable behaviour of one effectful call of the
source: `.error e` stands for that call raising an exception with message
`e`.  `save` models `save_object`'s filesystem write (mkdir/open/write can
raise `IOError`); it is keyed by the object kind, database, full object
name, and the content value about to be written.  The content slot holds a
Python value that is a `str` or `None` (`Option String`): the view and
procedure resolvers can return `None` for a NULL-definition row, in which
case the real `save_object` raises a `TypeError` from `f.write(None)` — an
outcome `save` is free to model with `.error`. -/
structure RunEnv where
  connect_ok : Bool
  get_databases : Except String (List String)
  get_tables : String → Except String (List DatabaseObject)
  get_views : String → Except String (List DatabaseObject)
  get_procedures : String → Except String (List DatabaseObject)
  table_native : String → DatabaseObject → Except String (Option (Option String))
  table_columns : String → DatabaseObject → Except String (List ColumnRow)
  view_lookup : String → DatabaseObject → Except String (Option (Option String))
  procedure_lookup : String → DatabaseObject → Except String (Option (Option String))
  save : ObjectType → String → String → Option String → Except String Unit

/-- One successful `save_object` call recorded during the run; `content`
is the str-or-`None` Python value that was passed in. -/
structure WriteRec where
  kind : ObjectType
  database : String
  obj_name : String
  content : Option String
deriving DecidableEq

/-- The content `extract_all_objects` passes to `save_object` for a table:
`get_table_ddl(database, table.schema, table.name)` (line 366) — always a
`str`, hence wrapped in `some` for the str-or-`None` content slot. -/
def resolve_table (env : RunEnv) (database : String) (o : DatabaseObject) : Option String :=
  some (get_table_ddl (env.table_native database o) (env.table_columns database o)
    o.schema o.name)

/-- Line 372: `get_view_definition(database, view.schema, view.name)`;
`none` when the Python call returns `None`. -/
def resolve_view (env : RunEnv) (database : String) (o : DatabaseObject) : Option String :=
  get_view_definition (env.view_lookup database o) o.schema o.name

/-- Line 378: `get_stored_procedure_definition(...)`. -/
def resolve_procedure (env : RunEnv) (database : String) (o : DatabaseObject) : Option String :=
  get_stored_procedure_definition (env.procedure_lookup database o) o.schema o.name

/-- One `for obj in objs: resolve; save_object(...)` loop of
`extract_all_objects` (lines 365-367, 371-373, 377-379).  There is no
`try`/`except` inside this loop in the source, so the first exception from
`save_object` stops the loop and propagates (first component `some e`);
the second component is the log of writes completed so far. -/
def save_objects_loop (save : ObjectType → String → String → Option String → Except String Unit)
    (kind : ObjectType) (database : String) (resolve : DatabaseObject → Option String) :
    List DatabaseObject → List WriteRec → Option String × List WriteRec
  | [], log => (none, log)
  | o :: rest, log =>
    let content := resolve o
    match save kind database o.full_name content with
    | .error e => (some e, log)
    | .ok _ =>
      save_objects_loop save kind database resolve rest
        (log ++ [⟨kind, database, o.full_name, content⟩])

/-- The body of one `for database in databases:` iteration (lines 360-381):
tables, then views, then stored procedures.  Enumeration calls
(`get_tables` etc.) and `save_object` calls can raise; there is no
per-database `try`/`except`, so the first exception propagates out. -/
def process_database (env : RunEnv) (database : String) (log : List WriteRec) :
    Option String × List WriteRec :=
  match env.get_tables database with
  | .error e => (some e, log)
  | .ok tables =>
    match save_objects_loop env.save .TABLE database (resolve_table env database) tables log with
    | (some e, log2) => (some e, log2)
    | (none, log2) =>
      match env.get_views database with
      | .error e => (some e, log2)
      | .ok views =>
        match save_objects_loop env.save .VIEW database (resolve_view env database) views log2 with
        | (some e, log3) => (some e, log3)
        | (none, log3) =>
          match env.get_procedures database with
          | .error e => (some e, log3)
          | .ok procedures =>
            save_objects_loop env.save .PROCEDURE database
              (resolve_procedure env database) procedures log3

/-- The `for database in databases:` loop; an exception from any iteration
propagates (stopping the loop over the remaining databases). -/
def process_databases (env : RunEnv) : List String → List WriteRec → Option String × List WriteRec
  | [], log => (none, log)
  | database :: rest, log =>
    match process_database env database log with
    | (some e, log2) => (some e, log2)
    | (none, log2) => process_databases env rest log2

/-- `extract_all_objects` (lines 349-392).  Returns the Python function's
boolean result paired with the log of successful `save_object` calls (the
run's side effects).  `if not self.connect(): return False`; then the whole
body sits in a single `try:` whose `except Exception` returns `False` —
there is no per-object or per-database handler. -/
def extract_all_objects (env : RunEnv) : Bool × List WriteRec :=
  if env.connect_ok then
    match env.get_databases with
    | .error _ => (false, [])
    | .ok databases =>
      match process_databases env databases [] with
      | (some _, log) => (false, log)
      | (none, log) => (true, log)
  else (false, [])

/-- A Python dict key as it occurs in `generate_report`'s `databases`
mapping: line 413 uses the string `db_folder.name`, line 416 uses the
`ObjectType` enum member `obj_type` itself (not `obj_type.value`). -/
inductive JKey where
  | jstr : String → JKey
  | jenum : ObjectType → JKey
deriving DecidableEq

/-- The slice of the filesystem `generate_report` inspects after a run:
whether `<output_dir>/<sanitized server>` exists, and, for each object
kind, `none` when `<server>/<kind.value>` does not exist, else the list of
its database sub-folders paired with their `len(db_folder.glob("*.sql"))`
counts, in iteration order. -/
structure ReportFs where
  server_folder_exists : Bool
  type_folder : ObjectType → Option (List (String × Nat))

/-- Python dict assignment `d[k] = n` on an association list: replace the
existing entry for `k` or append a new one. -/
def dict_set (inner : List (JKey × Nat)) (k : JKey) (n : Nat) : List (JKey × Nat) :=
  match inner with
  | [] => [(k, n)]
  | (k0, n0) :: rest => if k0 = k then (k, n) :: rest else (k0, n0) :: dict_set rest k n

/-- Lines 412-416: `if db_folder.name not in databases:
databases[db_folder.name] = {}` then
`databases[db_folder.name][obj_type] = len(files)` — the inner key is the
enum member `obj_type`, hence `JKey.jenum`. -/
def databases_set (dbs : List (String × List (JKey × Nat))) (name : String)
    (k : JKey) (n : Nat) : List (String × List (JKey × Nat)) :=
  match dbs with
  | [] => [(name, dict_set [] k n)]
  | (nm, inner) :: rest =>
    if nm = name then (nm, dict_set inner k n) :: rest
    else (nm, inner) :: databases_set rest name k n

/-- `for obj_type in ObjectType:` iterates the members in definition
order. -/
def object_types : List ObjectType := [.TABLE, .VIEW, .PROCEDURE]

/-- Lines 408-416: one object kind's contribution to the `databases`
mapping — skip a missing kind folder, else record each database folder's
`.sql` count under the key `JKey.jenum obj_type`. -/
def collect_type_folder (fs : ReportFs) (obj_type : ObjectType)
    (acc : List (String × List (JKey × Nat))) : List (String × List (JKey × Nat)) :=
  match fs.type_folder obj_type with
  | none => acc
  | some entries =>
    entries.foldl (fun a ent => databases_set a ent.1 (JKey.jenum obj_type) ent.2) acc

/-- The full `databases` dict built by `generate_report` lines 405-416. -/
def build_databases (fs : ReportFs) : List (String × List (JKey × Nat)) :=
  object_types.foldl (fun a k => collect_type_folder fs k a) []

/-- Whether a `JKey` is a type `json.dump` accepts as a dict key. -/
def jkey_serializable : JKey → Bool
  | .jstr _ => true
  | .jenum _ => false

/-- Modelled from the Python standard library: `json.dump` raises
`TypeError` for any dict key that is not `str`/`int`/`float`/`bool`/`None`
(`skipkeys` defaults to `False`, and the `default=str` hook is consulted
only for unserializable *values*, never for keys).  The report's top-level
keys (`"extraction_date"`, `"server"`, `"output_directory"`,
`"databases"`) and the database names are `str`, so serialization of the
report succeeds iff every inner per-database key is serializable.
`.ok ()` means a complete JSON document reached the file; `.error e` means
`json.dump` raised after the file was opened for writing, leaving no valid
report document. -/
def json_dump_report (databases : Option (List (String × List (JKey × Nat)))) :
    Except String Unit :=
  match databases with
  | none => .ok ()
  | some dbs =>
    if dbs.all (fun db => db.2.all (fun kv => jkey_serializable kv.1)) then .ok ()
    else .error "TypeError: keys must be str, int, float, bool or None, not ObjectType"

/-- `generate_report` (lines 394-427): the `databases` key is added to the
report only when the server folder exists; then `json.dump` runs inside
the same `try:` — a `TypeError` from it is caught at line 426 and only
logged, so the function never raises, but no valid report is produced. -/
def generate_report (fs : ReportFs) : Except String Unit :=
  json_dump_report (if fs.server_folder_exists then some (build_databases fs) else none)

/-- The single combined character map that the three chained `replace`
calls of `save_object`'s sanitization perform. -/
def san_char (c : Char) : Char :=
  if c = '\\' then '_' else if c = '/' then '_' else if c = ':' then '_' else c

/-- The combined character map of the server-name sanitization (only
backslash and forward slash; colon is untouched). -/
def srv_char (c : Char) : Char :=
  if c = '\\' then '_' else if c = '/' then '_' else c

/-- Follows the spec's words for the artifact file format: a sequence of
lines joined by single newlines. -/
def join_lines : List String → String
  | [] => ""
  | [l] => l
  | l :: l2 :: rest => l ++ "\n" ++ join_lines (l2 :: rest)

/-- Follows the spec's words for the synthesized column block: one line
per column in the given order, every line but the last followed by a
comma, each line terminated by a newline. -/
def spec_column_block : List ColumnRow → String
  | [] => ""
  | [col] => ddl_column_line col ++ "\n"
  | col :: col2 :: rest => ddl_column_line col ++ ",\n" ++ spec_column_block (col2 :: rest)

/-- The `[Id] int NOT NULL IDENTITY` column of the spec's example table
`dbo.Orders`. -/
def colId : ColumnRow := ⟨"Id", "int", false, true, false⟩

/-- The `[Total] decimal(10,2) NULL` column of the spec's example. -/
def colTotal : ColumnRow := ⟨"Total", "decimal(10,2)", true, false, false⟩

/-- An environment in which everything succeeds: one database `DB1` with
one table `dbo.T1` (no native definition, zero columns), no views, no
procedures. -/
def envAllOk : RunEnv where
  connect_ok := true
  get_databases := .ok ["DB1"]
  get_tables := fun _ => .ok [⟨"dbo", "T1"⟩]
  get_views := fun _ => .ok []
  get_procedures := fun _ => .ok []
  table_native := fun _ _ => .ok none
  table_columns := fun _ _ => .ok []
  view_lookup := fun _ _ => .ok none
  procedure_lookup := fun _ _ => .ok none
  save := fun _ _ _ _ => .ok ()

/-- Session acquired, enumeration succeeds (two tables in `DB1`), but
`save_object` raises an `IOError` on every write. -/
def envSaveFail : RunEnv :=
  { envAllOk with
    get_tables := fun _ => .ok [⟨"dbo", "T1"⟩, ⟨"dbo", "T2"⟩],
    save := fun _ _ _ _ => .error "IOError: disk full" }

/-- Counterexample run for the per-object isolation claim: session ok,
enumeration ok (one table), resolution ok, but the `save_object` write for
that one object raises an `IOError`. -/
def envC1 : RunEnv :=
  { envAllOk with save := fun _ _ _ _ => .error "IOError: read-only file system" }

/-- Counterexample run for the per-database isolation claim: two
databases; enumerating tables of `DB1` raises a permission error, while
`DB2` enumerates fine and holds one view whose write would succeed. -/
def envC4 : RunEnv :=
  { envAllOk with
    get_databases := .ok ["DB1", "DB2"],
    get_tables := fun db => if db = "DB1" then .error "permission denied" else .ok [],
    get_views := fun db => if db = "DB2" then .ok [⟨"dbo", "V1"⟩] else .ok [] }

/-- A run where table enumeration fails in the only database. -/
def envEnumFail : RunEnv :=
  { envAllOk with get_tables := fun _ => .error "permission denied" }

/-- A post-run output tree with one artifact: server folder exists, the
`tables` folder holds one database folder `DB1` containing one `.sql`
file; the `views` and `stored_procedures` folders exist but are empty. -/
def fsC2 : ReportFs where
  server_folder_exists := true
  type_folder := fun obj_type =>
    match obj_type with
    | .TABLE => some [("DB1", 1)]
    | .VIEW => some []
    | .PROCEDURE => some []

theorem string_data_ext {a b : String} (h : a.data = b.data) : a = b := by
  cases a; cases b; exact congrArg String.mk h

theorem replaceChar_eq_map (pat rep : Char) (l : List Char) :
    replaceChar pat rep l = l.map (fun c => if c = pat then rep else c) := by
  induction l with
  | nil => rfl
  | cons c cs ih => simp [replaceChar, ih]

theorem sanitize_obj_name_eq_map (s : String) :
    (sanitize_obj_name s).data = s.data.map san_char := by
  show replaceChar ':' '_' (replaceChar '/' '_' (replaceChar '\\' '_' s.data)) =
    s.data.map san_char
  rw [replaceChar_eq_map, replaceChar_eq_map, replaceChar_eq_map, List.map_map, List.map_map]
  congr 1
  funext c
  simp only [Function.comp]
  by_cases h1 : c = '\\'
  · subst h1; rfl
  · by_cases h2 : c = '/'
    · subst h2; rfl
    · by_cases h3 : c = ':'
      · subst h3; rfl
      · simp [san_char, h1, h2, h3]

theorem sanitize_server_name_eq_map (s : String) :
    (sanitize_server_name s).data = s.data.map srv_char := by
  show replaceChar '/' '_' (replaceChar '\\' '_' s.data) = s.data.map srv_char
  rw [replaceChar_eq_map, replaceChar_eq_map, List.map_map]
  congr 1
  funext c
  simp only [Function.comp]
  by_cases h1 : c = '\\'
  · subst h1; rfl
  · by_cases h2 : c = '/'
    · subst h2; rfl
    · simp [srv_char, h1, h2]

theorem san_char_idem (c : Char) : san_char (san_char c) = san_char c := by
  by_cases h1 : c = '\\'
  · subst h1; rfl
  · by_cases h2 : c = '/'
    · subst h2; rfl
    · by_cases h3 : c = ':'
      · subst h3; rfl
      · have hc : san_char c = c := by simp [san_char, h1, h2, h3]
        rw [hc, hc]

theorem san_char_ne (c : Char) :
    san_char c ≠ '\\' ∧ san_char c ≠ '/' ∧ san_char c ≠ ':' := by
  by_cases h1 : c = '\\'
  · subst h1; exact ⟨by decide, by decide, by decide⟩
  · by_cases h2 : c = '/'
    · subst h2; exact ⟨by decide, by decide, by decide⟩
    · by_cases h3 : c = ':'
      · subst h3; exact ⟨by decide, by decide, by decide⟩
      · have hc : san_char c = c := by simp [san_char, h1, h2, h3]
        rw [hc]; exact ⟨h1, h2, h3⟩

theorem srv_char_ne (c : Char) : srv_char c ≠ '\\' ∧ srv_char c ≠ '/' := by
  by_cases h1 : c = '\\'
  · subst h1; exact ⟨by decide, by decide⟩
  · by_cases h2 : c = '/'
    · subst h2; exact ⟨by decide, by decide⟩
    · have hc : srv_char c = c := by simp [srv_char, h1, h2]
      rw [hc]; exact ⟨h1, h2⟩

theorem sanitize_obj_name_no_bad (s : String) :
    '\\' ∉ (sanitize_obj_name s).data ∧ '/' ∉ (sanitize_obj_name s).data ∧
      ':' ∉ (sanitize_obj_name s).data := by
  rw [sanitize_obj_name_eq_map]
  refine ⟨fun hmem => ?_, fun hmem => ?_, fun hmem => ?_⟩
  · obtain ⟨a, -, ha⟩ := List.mem_map.mp hmem
    exact (san_char_ne a).1 ha
  · obtain ⟨a, -, ha⟩ := List.mem_map.mp hmem
    exact (san_char_ne a).2.1 ha
  · obtain ⟨a, -, ha⟩ := List.mem_map.mp hmem
    exact (san_char_ne a).2.2 ha

/-- Claim C9: the object-name sanitization used by `save_object` is
idempotent, and for every name containing a backslash, forward slash or
colon, the sanitized output contains none of those three characters. -/
theorem c9_sanitize_idempotent :
    (∀ s : String, sanitize_obj_name (sanitize_obj_name s) = sanitize_obj_name s) ∧
    (∀ s : String, ('\\' ∈ s.data ∨ '/' ∈ s.data ∨ ':' ∈ s.data) →
      '\\' ∉ (sanitize_obj_name s).data ∧ '/' ∉ (sanitize_obj_name s).data ∧
        ':' ∉ (sanitize_obj_name s).data) := by
  constructor
  · intro s
    apply string_data_ext
    rw [sanitize_obj_name_eq_map, sanitize_obj_name_eq_map, List.map_map]
    congr 1
    funext c
    simp only [Function.comp]
    exact san_char_idem c
  · intro s _
    exact sanitize_obj_name_no_bad s

theorem c9_witness :
    sanitize_obj_name (sanitize_obj_name "dbo.An_Object") = sanitize_obj_name "dbo.An_Object" ∧
    ('\\' ∉ (sanitize_obj_name "dbo.a\\b:c").data ∧
      '/' ∉ (sanitize_obj_name "dbo.a\\b:c").data ∧
      ':' ∉ (sanitize_obj_name "dbo.a\\b:c").data) :=
  ⟨c9_sanitize_idempotent.1 "dbo.An_Object",
   c9_sanitize_idempotent.2 "dbo.a\\b:c" (Or.inl (by decide))⟩

/-- Claim C3, amended: the artifact path is
`<output_root>/<sanitized_server>/<object_kind_folder>/<database>/<sanitized_full_name>.sql`
with the kind folder in `{tables, views, stored_procedures}`, and the
sanitized object-name segment contains no backslash, slash or colon; but
the server segment is sanitized only for backslash and slash — colons are
NOT replaced there (see `c3_counterexample`). -/
theorem c3_output_path_amended (output_dir server_name database obj_name : String)
    (obj_type : ObjectType) :
    object_path output_dir server_name obj_type database obj_name =
      [output_dir, sanitize_server_name server_name, obj_type.value, database,
        sanitize_obj_name obj_name ++ ".sql"] ∧
    (obj_type.value = "tables" ∨ obj_type.value = "views" ∨
      obj_type.value = "stored_procedures") ∧
    ('\\' ∉ (sanitize_obj_name obj_name).data ∧ '/' ∉ (sanitize_obj_name obj_name).data ∧
      ':' ∉ (sanitize_obj_name obj_name).data) ∧
    ('\\' ∉ (sanitize_server_name server_name).data ∧
      '/' ∉ (sanitize_server_name server_name).data) := by
  refine ⟨rfl, ?_, sanitize_obj_name_no_bad obj_name, ?_⟩
  · cases obj_type
    · exact Or.inl rfl
    · exact Or.inr (Or.inl rfl)
    · exact Or.inr (Or.inr rfl)
  · rw [sanitize_server_name_eq_map]
    constructor
    · intro hmem
      obtain ⟨a, -, ha⟩ := List.mem_map.mp hmem
      exact (srv_char_ne a).1 ha
    · intro hmem
      obtain ⟨a, -, ha⟩ := List.mem_map.mp hmem
      exact (srv_char_ne a).2 ha

/-- Claim C3 fails as stated: the server-name sanitization replaces only
backslash and slash, so a server name containing a colon (here
`myhost:1433`) yields a sanitized server path segment that still contains
the colon. -/
theorem c3_counterexample :
    ':' ∈ (sanitize_server_name "myhost:1433").data ∧
    object_path "out" "myhost:1433" ObjectType.TABLE "DB1" "dbo.Orders" =
      ["out", "myhost:1433", "tables", "DB1", "dbo.Orders.sql"] := by
  constructor
  · decide
  · rfl

/-- Claim C8: the file written by `save_object` is exactly three comment
header lines (timestamp, database, the original unsanitized object name),
one blank line, then the content verbatim. -/
theorem c8_artifact_format (timestamp database obj_name content : String) :
    save_object_content timestamp database obj_name content =
      join_lines ["-- Extracted on " ++ timestamp, "-- Database: " ++ database,
        "-- Object: " ++ obj_name, "", content] := by
  have h2 : ("\n\n" : String) = "\n" ++ "\n" := rfl
  simp only [save_object_content, join_lines, h2, String.append_assoc,
    String.empty_append]

/-- Claim C10: on a zero-column metadata result, `_generate_table_ddl`
returns the empty-body statement `CREATE TABLE [schema].[table] (\n);`
rather than failing or reporting the table unavailable. -/
theorem c10_zero_column_ddl (schema table : String) :
    generate_table_ddl (Except.ok []) schema table =
      Except.ok ("CREATE TABLE [" ++ schema ++ "].[" ++ table ++ "] (\n" ++ ");") := rfl

theorem ddl_columns_loop_cons (n : Nat) (col : ColumnRow) (rest : List ColumnRow)
    (i : Nat) (acc : String) :
    ddl_columns_loop n (col :: rest) i acc =
      ddl_columns_loop n rest (i + 1)
        ((if i < n - 1 then acc ++ ddl_column_line col ++ ","
          else acc ++ ddl_column_line col) ++ "\n") := rfl

theorem ddl_columns_loop_eq (n : Nat) (cols : List ColumnRow) :
    ∀ (i : Nat) (acc : String), i + cols.length = n →
      ddl_columns_loop n cols i acc = acc ++ spec_column_block cols ++ ");" := by
  induction cols with
  | nil =>
    intro i acc _
    simp [ddl_columns_loop, spec_column_block, String.append_assoc, String.empty_append]
  | cons col rest ih =>
    intro i acc h
    cases rest with
    | nil =>
      have hlt : ¬ i < n - 1 := by simp at h; omega
      rw [ddl_columns_loop_cons, if_neg hlt]
      show ((acc ++ ddl_column_line col) ++ "\n") ++ ");" = _
      simp [spec_column_block, String.append_assoc]
    | cons col2 rest2 =>
      have hlt : i < n - 1 := by simp at h; omega
      rw [ddl_columns_loop_cons, if_pos hlt,
        ih (i + 1) ((acc ++ ddl_column_line col ++ ",") ++ "\n") (by simp at h ⊢; omega)]
      have hc : (",\n" : String) = "," ++ "\n" := rfl
      simp only [spec_column_block, hc]
      simp [String.append_assoc]

/-- Claim C6: for at least one column, the synthesized DDL is the header
line `CREATE TABLE [schema].[table] (`, then one line per column in the
given order — `    [name] type IDENTITY(1,1)? NULL|NOT NULL` per
`ddl_column_line` — each line but the last followed by a comma, closed by
`);`. -/
theorem c6_ddl_column_block (schema table : String) (cols : List ColumnRow)
    (_hlen : 1 ≤ cols.length) :
    generate_table_ddl_columns schema table cols =
      "CREATE TABLE [" ++ schema ++ "].[" ++ table ++ "] (\n" ++
        spec_column_block cols ++ ");" := by
  have h0 : (0 : Nat) + cols.length = cols.length := by omega
  have := ddl_columns_loop_eq cols.length cols 0
    ("CREATE TABLE [" ++ schema ++ "].[" ++ table ++ "] (\n") h0
  rw [generate_table_ddl_columns, this]

theorem c6_witness :
    1 ≤ ([colId, colTotal] : List ColumnRow).length ∧
    generate_table_ddl_columns "dbo" "Orders" [colId, colTotal] =
      "CREATE TABLE [dbo].[Orders] (\n    [Id] int IDENTITY(1,1) NOT NULL,\n    [Total] decimal(10,2) NULL\n);" := by
  refine ⟨by decide, ?_⟩
  rw [c6_ddl_column_block "dbo" "Orders" [colId, colTotal] (by decide)]
  rfl

/-- Claim C5: `get_table_ddl` returns the native definition when the
native lookup yields a row with a non-empty definition; when the native
lookup yields nothing (no row, NULL definition, or empty definition) it
returns `_generate_table_ddl`'s output; when the synthesis column query
raises it returns the placeholder comment embedding the error; and an
exception from the native query itself is likewise converted to the
placeholder — the function never propagates an exception. -/
theorem c5_table_ddl_resolution (native : Except String (Option (Option String)))
    (columns : Except String (List ColumnRow)) (schema table : String) :
    (∀ d, native = Except.ok (some (some d)) → d ≠ "" →
      get_table_ddl native columns schema table = d) ∧
    (∀ cols, (native = Except.ok none ∨ native = Except.ok (some none) ∨
        native = Except.ok (some (some ""))) →
      columns = Except.ok cols →
      get_table_ddl native columns schema table =
        generate_table_ddl_columns schema table cols) ∧
    (∀ e, (native = Except.ok none ∨ native = Except.ok (some none) ∨
        native = Except.ok (some (some ""))) →
      columns = Except.error e →
      get_table_ddl native columns schema table = table_ddl_error_comment schema table e) ∧
    (∀ e, native = Except.error e →
      get_table_ddl native columns schema table = table_ddl_error_comment schema table e) := by
  refine ⟨?_, ?_, ?_, ?_⟩
  · intro d hnat hd
    subst hnat
    simp [get_table_ddl, hd]
  · intro cols hnat hcols
    subst hcols
    rcases hnat with h | h | h <;> subst h <;> simp [get_table_ddl, generate_table_ddl]
  · intro e hnat hcols
    subst hcols
    rcases hnat with h | h | h <;> subst h <;> simp [get_table_ddl, generate_table_ddl]
  · intro e hnat
    subst hnat
    simp [get_table_ddl]

theorem c5_witness :
    get_table_ddl (Except.ok (some (some "CREATE TABLE [dbo].[T] (x int)")))
        (Except.ok []) "dbo" "T" = "CREATE TABLE [dbo].[T] (x int)" ∧
    get_table_ddl (Except.ok none) (Except.ok [colId]) "dbo" "T" =
      generate_table_ddl_columns "dbo" "T" [colId] ∧
    get_table_ddl (Except.ok none) (Except.error "column query failed") "dbo" "T" =
      table_ddl_error_comment "dbo" "T" "column query failed" ∧
    get_table_ddl (Except.error "network error") (Except.ok []) "dbo" "T" =
      table_ddl_error_comment "dbo" "T" "network error" := by
  refine ⟨?_, ?_, ?_, ?_⟩
  · exact (c5_table_ddl_resolution _ _ _ _).1 _ rfl (by decide)
  · exact (c5_table_ddl_resolution _ _ _ _).2.1 _ (Or.inl rfl) rfl
  · exact (c5_table_ddl_resolution _ _ _ _).2.2.1 _ (Or.inl rfl) rfl
  · exact (c5_table_ddl_resolution _ _ _ _).2.2.2 _ rfl

/-- Claim C7, amended: `get_view_definition` and
`get_stored_procedure_definition` return the one-line placeholder comment
naming the schema-qualified object when the lookup yields no row or the
query raises, and return the native definition text when a row with a
non-NULL definition is found; but a found row whose `definition` column is
SQL NULL (encrypted module — the spec's "definition stripped" case) makes
them return Python `None`, which is neither the placeholder nor any
definition text.  Neither function ever raises to its caller. -/
theorem c7_module_definition_nullable (schema name d e : String) :
    get_view_definition (Except.ok (some (some d))) schema name = some d ∧
    get_view_definition (Except.ok none) schema name =
      some (view_unavailable_comment schema name) ∧
    get_view_definition (Except.error e) schema name =
      some (view_unavailable_comment schema name) ∧
    get_view_definition (Except.ok (some none)) schema name = none ∧
    get_stored_procedure_definition (Except.ok (some (some d))) schema name = some d ∧
    get_stored_procedure_definition (Except.ok none) schema name =
      some (procedure_unavailable_comment schema name) ∧
    get_stored_procedure_definition (Except.error e) schema name =
      some (procedure_unavailable_comment schema name) ∧
    get_stored_procedure_definition (Except.ok (some none)) schema name = none :=
  ⟨rfl, rfl, rfl, rfl, rfl, rfl, rfl, rfl⟩

/-- Claim C7 fails as stated: a view row and a procedure row are found
(the lookup succeeds and `fetchone()` returns a one-column row), but the
`definition` column is SQL NULL, so `if result: return result[0]` returns
Python `None` — not the placeholder comment and not any native definition
text. -/
theorem c7_counterexample :
    get_view_definition (Except.ok (some none)) "dbo" "V1" = none ∧
    get_view_definition (Except.ok (some none)) "dbo" "V1" ≠
      some (view_unavailable_comment "dbo" "V1") ∧
    get_stored_procedure_definition (Except.ok (some none)) "dbo" "P1" = none ∧
    get_stored_procedure_definition (Except.ok (some none)) "dbo" "P1" ≠
      some (procedure_unavailable_comment "dbo" "P1") := by
  refine ⟨rfl, ?_, rfl, ?_⟩
  · intro h
    exact Option.noConfusion h
  · intro h
    exact Option.noConfusion h

theorem save_objects_loop_ok (save : ObjectType → String → String → Option String → Except String Unit)
    (kind : ObjectType) (database : String) (resolve : DatabaseObject → Option String)
    (hsave : ∀ k d n c, save k d n c = Except.ok ()) :
    ∀ (objs : List DatabaseObject) (log : List WriteRec),
      (save_objects_loop save kind database resolve objs log).1 = none := by
  intro objs
  induction objs with
  | nil => intro log; rfl
  | cons o rest ih =>
    intro log
    simp only [save_objects_loop, hsave]
    exact ih _

theorem process_database_ok (env : RunEnv) (database : String) (log : List WriteRec)
    (hsave : ∀ k d n c, env.save k d n c = Except.ok ())
    (ht : ∃ x, env.get_tables database = Except.ok x)
    (hv : ∃ x, env.get_views database = Except.ok x)
    (hp : ∃ x, env.get_procedures database = Except.ok x) :
    (process_database env database log).1 = none := by
  obtain ⟨tables, ht⟩ := ht
  obtain ⟨views, hv⟩ := hv
  obtain ⟨procedures, hp⟩ := hp
  rcases hpair1 : save_objects_loop env.save .TABLE database (resolve_table env database)
      tables log with ⟨err1, log2⟩
  have h1 := save_objects_loop_ok env.save .TABLE database (resolve_table env database)
    hsave tables log
  rw [hpair1] at h1
  have herr1 : err1 = none := h1
  subst herr1
  rcases hpair2 : save_objects_loop env.save .VIEW database (resolve_view env database)
      views log2 with ⟨err2, log3⟩
  have h2 := save_objects_loop_ok env.save .VIEW database (resolve_view env database)
    hsave views log2
  rw [hpair2] at h2
  have herr2 : err2 = none := h2
  subst herr2
  rcases hpair3 : save_objects_loop env.save .PROCEDURE database (resolve_procedure env database)
      procedures log3 with ⟨err3, log4⟩
  have h3 := save_objects_loop_ok env.save .PROCEDURE database (resolve_procedure env database)
    hsave procedures log3
  rw [hpair3] at h3
  have herr3 : err3 = none := h3
  subst herr3
  simp [process_database, ht, hv, hp, hpair1, hpair2, hpair3]

theorem process_databases_ok (env : RunEnv)
    (hsave : ∀ k d n c, env.save k d n c = Except.ok ()) :
    ∀ (databases : List String) (log : List WriteRec),
      (∀ db ∈ databases, (∃ x, env.get_tables db = Except.ok x) ∧
        (∃ x, env.get_views db = Except.ok x) ∧
        (∃ x, env.get_procedures db = Except.ok x)) →
      (process_databases env databases log).1 = none := by
  intro databases
  induction databases with
  | nil => intro log _; rfl
  | cons db rest ih =>
    intro log henum
    obtain ⟨ht, hv, hp⟩ := henum db (List.mem_cons_self db rest)
    rcases hpair : process_database env db log with ⟨err1, log2⟩
    have h1 := process_database_ok env db log hsave ht hv hp
    rw [hpair] at h1
    have herr : err1 = none := h1
    subst herr
    simp only [process_databases, hpair]
    exact ih log2 (fun dd hd => henum dd (List.mem_cons_of_mem db hd))

/-- Claim C1, amended: an exception raised while *resolving* a single
object is caught inside the resolver itself and never aborts the run —
with the session acquired, enumeration succeeding and every write
succeeding, `extract_all_objects` returns `True` regardless of the
per-object query outcomes.  But an `IOError` raised by `save_object` is
NOT caught at the object's loop iteration: it propagates to the run-level
`except`, `extract_all_objects` returns `False`, and no further object is
processed (here it fails on the first table of the first database, with an
empty write log). -/
theorem c1_per_object_isolation_amended (env : RunEnv) :
    ((∀ databases, env.connect_ok = true → env.get_databases = Except.ok databases →
      (∀ db ∈ databases, (∃ x, env.get_tables db = Except.ok x) ∧
        (∃ x, env.get_views db = Except.ok x) ∧
        (∃ x, env.get_procedures db = Except.ok x)) →
      (∀ k d n c, env.save k d n c = Except.ok ()) →
      (extract_all_objects env).1 = true) ∧
    (∀ d rest t ts e, env.connect_ok = true →
      env.get_databases = Except.ok (d :: rest) →
      env.get_tables d = Except.ok (t :: ts) →
      env.save .TABLE d t.full_name (resolve_table env d t) = Except.error e →
      extract_all_objects env = (false, []))) := by
  constructor
  · intro databases hc hdbs henum hsave
    rcases hpair : process_databases env databases [] with ⟨err, log⟩
    have h1 := process_databases_ok env hsave databases [] henum
    rw [hpair] at h1
    have herr : err = none := h1
    subst herr
    simp [extract_all_objects, hc, hdbs, hpair]
  · intro d rest t ts e hc hdbs ht hsave
    have hpd : process_database env d [] = (some e, []) := by
      simp [process_database, ht, save_objects_loop, hsave]
    simp [extract_all_objects, hc, hdbs, process_databases, hpd]

theorem c1_witness :
    (extract_all_objects envAllOk).1 = true ∧
    extract_all_objects envSaveFail = (false, []) := by
  constructor
  · refine (c1_per_object_isolation_amended envAllOk).1 ["DB1"] rfl rfl ?_ ?_
    · intro db _
      exact ⟨⟨_, rfl⟩, ⟨_, rfl⟩, ⟨_, rfl⟩⟩
    · intro k d n c
      rfl
  · exact (c1_per_object_isolation_amended envSaveFail).2 "DB1" [] ⟨"dbo", "T1"⟩
      [⟨"dbo", "T2"⟩] "IOError: disk full" rfl rfl rfl rfl

/-- Claim C1 fails as stated: in `envC1` the session is acquired,
enumeration succeeds, resolution succeeds, and only the `save_object`
write for the single enumerated object raises an `IOError` — yet
`extract_all_objects` aborts the whole run and returns `False` (with
nothing written), instead of catching the failure at that object's loop
iteration and proceeding. -/
theorem c1_counterexample : extract_all_objects envC1 = (false, []) := rfl

/-- Claim C4, amended: a failure enumerating objects within one database
(e.g. `get_tables` raising a permission error) is NOT caught at that
database's loop iteration: it propagates to the run-level `except`,
`extract_all_objects` returns `False`, and the remaining databases in the
sequence are never processed (here the failure hits the first database, so
nothing at all is written). -/
theorem c4_database_skip_amended (env : RunEnv) (d : String) (rest : List String)
    (e : String) (hc : env.connect_ok = true)
    (hdbs : env.get_databases = Except.ok (d :: rest))
    (ht : env.get_tables d = Except.error e) :
    extract_all_objects env = (false, []) := by
  have hpd : process_database env d [] = (some e, []) := by
    simp [process_database, ht]
  simp [extract_all_objects, hc, hdbs, process_databases, hpd]

theorem c4_witness : extract_all_objects envEnumFail = (false, []) :=
  c4_database_skip_amended envEnumFail "DB1" [] "permission denied" rfl rfl rfl

/-- Claim C4 fails as stated: in `envC4` the session is established and
`listDatabases` yields `["DB1", "DB2"]`; enumerating tables of `DB1`
raises a permission error while `DB2` would enumerate fine and contains a
view whose write would succeed.  The claim says `DB1` is skipped and the
run advances to `DB2`; instead `extract_all_objects` aborts the whole run,
returns `False`, and writes nothing — `DB2`'s view is never extracted. -/
theorem c4_counterexample : extract_all_objects envC4 = (false, []) := rfl

/-- Claim C2 is right about the intended behaviour but the code has a
slip: line 416 stores `obj_type` — the `ObjectType` enum member — as the
inner dict key instead of `obj_type.value`, so for any completed run whose
output tree contains at least one database folder with artifacts,
`json.dump` raises `TypeError` (non-`str` dict key; `default=str` applies
only to values).  The exception is caught at line 426 and merely logged,
so no valid `extraction_report.json` document is produced.  Here: a tree
with one `.sql` file under `tables/DB1` makes `generate_report` fail. -/
theorem c2_report_enum_keys_bug :
    build_databases fsC2 = [("DB1", [(JKey.jenum ObjectType.TABLE, 1)])] ∧
    generate_report fsC2 =
      Except.error "TypeError: keys must be str, int, float, bool or None, not ObjectType" ∧
    generate_report { fsC2 with type_folder := fun _ => some [] } = Except.ok () := by
  exact ⟨rfl, rfl, rfl⟩
